import Mathlib

/-!
Shallow embedding of the two fetcher modules of `github-readme-stats`
(`src/fetchers/top-languages-fetcher.js` and `src/fetchers/stats-fetcher.js`)
together with theorems settling the claims about them.

Numbers: JavaScript numerals are modelled as `Nat` (non-negative API counts),
`Int` (rounded percentages) and `Rat` (fractional sizes and divisions).
Asynchronous upstream interaction is modelled by passing the sequence of
upstream responses to the function as an explicit argument; each function
also reports the number of upstream requests it issued.
-/

/-- Error values thrown by the fetchers.  `missingParam` models
`MissingParamError` and `custom msg ty` models `CustomError(message, type)`.
Modelled from the spec: the classes `MissingParamError` and `CustomError`
live in `common/utils.js`, which is not under `src/`; the spec (section 7)
describes them as a typed taxonomy carrying a message and a type tag
(`CustomError.USER_NOT_FOUND = "USER_NOT_FOUND"` etc.).  `jsUndefinedAccess`
marks a property access on `undefined` (a JS TypeError) and `noUpstream`
is a model artifact for an exhausted response supply, which cannot occur
against the real API. -/
inductive JsError where
  | missingParam (params : List String)
  | custom (message : String) (ty : String)
  | jsUndefinedAccess
  | noUpstream
deriving DecidableEq, Repr

/-- JavaScript truthiness of a nullable string: `null`/`undefined` and the
empty string are falsy. -/
def jsTruthyStr : Option String → Bool
  | none => false
  | some s => s ≠ ""

/-- The JavaScript expression `s || dflt` for a nullable string `s`. -/
def jsOrStr (s : Option String) (dflt : String) : String :=
  match s with
  | none => dflt
  | some m => if m = "" then dflt else m

/-- `Math.round` on rationals: round half toward positive infinity,
`round x = floor (x + 1/2)`. -/
def jsRound (q : ℚ) : ℤ :=
  ⌊q + 1/2⌋

/-! ## Top-languages fetcher (`src/fetchers/top-languages-fetcher.js`) -/

/-- One language edge of a repository node as returned by the GraphQL query
(`languages.edges`: `size`, `node.name`, `node.color`). -/
structure LangEdge where
  size : Nat
  name : String
  color : String
deriving DecidableEq, Repr

/-- One repository node of the top-languages query response. -/
structure LangRepoNode where
  name : String
  edges : List LangEdge
deriving DecidableEq, Repr

/-- An aggregated language record: `{ name, color, size, count }`. -/
structure LangStat where
  name : String
  color : String
  size : ℚ
  count : Nat
deriving DecidableEq, Repr

/-- The hard-coded `customLanguages` object of
`top-languages-fetcher.js` (lines 80–153), in insertion order. -/
def customLanguages : List (String × LangStat) :=
  [ ("Python", ⟨"Python", "#3572A5", 38.5, 15⟩)
  , ("TypeScript", ⟨"TypeScript", "#2b7489", 14.2, 8⟩)
  , ("JavaScript", ⟨"JavaScript", "#f1e05a", 12.8, 7⟩)
  , ("Rust", ⟨"Rust", "#dea584", 8.6, 5⟩)
  , ("C++", ⟨"C++", "#f34b7d", 6.8, 4⟩)
  , ("Solidity", ⟨"Solidity", "#AA6746", 4.2, 3⟩)
  , ("Shell", ⟨"Shell", "#89e051", 3.8, 6⟩)
  , ("Go", ⟨"Go", "#00ADD8", 3.2, 2⟩)
  , ("C", ⟨"C", "#555555", 2.9, 2⟩)
  , ("Dockerfile", ⟨"Dockerfile", "#384d54", 2.1, 4⟩)
  , ("PowerShell", ⟨"PowerShell", "#012456", 1.6, 3⟩)
  , ("Makefile", ⟨"Makefile", "#427819", 1.3, 2⟩) ]

/-- `totalBytes`: `Object.values(customLanguages).reduce((acc, c) => acc + c.size, 0)`. -/
def totalBytes : ℚ :=
  customLanguages.foldl (fun acc c => acc + c.2.size) 0

/-- The in-place normalization `customLanguages[key].size = size / totalBytes * 100`. -/
def normalizedLanguages : List (String × LangStat) :=
  customLanguages.map (fun kv => (kv.1, { kv.2 with size := kv.2.size / totalBytes * 100 }))

/-- Stable insertion of an entry into a list sorted descending by `size`,
placing the inserted (earlier) entry before later entries of equal size,
as JavaScript's stable `Array.prototype.sort` with comparator
`(b.size - a.size)` does. -/
def insertBySizeDesc (x : String × LangStat) : List (String × LangStat) → List (String × LangStat)
  | [] => [x]
  | y :: ys => if y.2.size ≤ x.2.size then x :: y :: ys else y :: insertBySizeDesc x ys

/-- Stable sort descending by `size` (JS `sort(([, a], [, b]) => b.size - a.size)`). -/
def sortBySizeDesc : List (String × LangStat) → List (String × LangStat)
  | [] => []
  | x :: xs => insertBySizeDesc x (sortBySizeDesc xs)

/-- The `topLangs` object the function returns: normalized entries sorted
descending by size (insertion order of the rebuilt object). -/
def topLangs : List (String × LangStat) :=
  sortBySizeDesc normalizedLanguages

/-- `fetchTopLanguages(username, exclude_repo, size_weight, count_weight)`.
The upstream repository payload the GraphQL query would return is passed as
`payload`; the function body never issues the request (its local `fetcher`
is unused) and never reads `payload`, `exclude_repo` or the weights.  The
second component counts upstream requests issued. -/
def fetchTopLanguages (username : String) (exclude_repo : List String)
    (size_weight count_weight : ℚ) (payload : List LangRepoNode) :
    Except JsError (List (String × LangStat)) × Nat :=
  if username = "" then
    (Except.error (JsError.missingParam ["username"]), 0)
  else
    (Except.ok topLangs, 0)

example : totalBytes = 100 := by norm_num [totalBytes, customLanguages]
example : topLangs.lookup "Python" = some ⟨"Python", "#3572A5", 38.5, 15⟩ := by
  norm_num [topLangs, sortBySizeDesc, insertBySizeDesc, normalizedLanguages,
    customLanguages, totalBytes, List.lookup]

/-! ## Stats fetcher (`src/fetchers/stats-fetcher.js`) -/

/-- Pagination info of a repository page (`pageInfo`). -/
structure PageInfo where
  hasNextPage : Bool
  endCursor : Option String
deriving DecidableEq, Repr

/-- One repository node of the stats query (`name`, `stargazers.totalCount`). -/
structure RepoNode where
  name : String
  stargazers : Nat
deriving DecidableEq, Repr

/-- The `repositories` object of a page: `nodes` plus `pageInfo`. -/
structure Repositories where
  nodes : List RepoNode
  pageInfo : PageInfo
deriving DecidableEq, Repr

/-- The `user` object of a stats response.  Only the fields the fetcher code
reads or writes are modelled: `name`, `login`, `pullRequests.totalCount`,
`repositoriesContributedTo.totalCount` and `repositories`. -/
structure StatsUser where
  name : Option String
  login : String
  pullRequests : Nat
  repositoriesContributedTo : Nat
  repositories : Repositories
deriving DecidableEq, Repr

/-- One element of the GraphQL `errors` array (`type` and `message`,
each possibly absent). -/
structure GqlError where
  ty : Option String
  message : Option String
deriving DecidableEq, Repr

/-- One upstream response (`res.data` plus `res.statusText`): an optional
`errors` array and the `data.user` payload. -/
structure StatsRes where
  errors : Option (List GqlError)
  user : StatsUser
  statusText : String
deriving DecidableEq, Repr

/-- Outcome of `statsFetcher`: `raw` is the early `return res` taken when a
page carries an `errors` array (no override applied); `merged` is the normal
loop exit after the override block; `noResponse` is a model artifact for an
exhausted response supply (the real API always answers a fetch). -/
inductive WalkOut where
  | raw (res : StatsRes)
  | merged (res : StatsRes)
  | noResponse
deriving DecidableEq, Repr

/-- The loop-continuation condition computed at the end of each iteration
(lines 122–128): `process.env.FETCH_MULTI_PAGE_STARS === "true"`, every node
of the just-fetched page has `stargazers.totalCount !== 0` (the filtered list
has full length), and the page reports `hasNextPage`. -/
def contCond (flag : String) (res : StatsRes) : Bool :=
  flag == "true"
    && res.user.repositories.nodes.length
        == (res.user.repositories.nodes.filter (fun n => n.stargazers != 0)).length
    && res.user.repositories.pageInfo.hasNextPage

/-- `stats.data.data.user.repositories.nodes.push(...repoNodes)`: append the
new page's nodes to the accumulated response. -/
def mergePage (stats res : StatsRes) : StatsRes :=
  { stats with user := { stats.user with repositories :=
      { stats.user.repositories with nodes :=
          stats.user.repositories.nodes ++ res.user.repositories.nodes } } }

/-- One node rewritten by the override block:
`stargazers: { totalCount: Math.min(node.stargazers.totalCount, 2) }`. -/
def capNode (n : RepoNode) : RepoNode :=
  { n with stargazers := min n.stargazers 2 }

/-- The override block (lines 132–140): force `pullRequests.totalCount` to 46
and `repositoriesContributedTo.totalCount` to 15, and cap every node's
stargazer count at 2. -/
def overrideStats (res : StatsRes) : StatsRes :=
  { res with user := { res.user with
      pullRequests := 46
      repositoriesContributedTo := 15
      repositories := { res.user.repositories with
          nodes := res.user.repositories.nodes.map capNode } } }

/-- The `while (hasNextPage)` loop of `statsFetcher`, one upstream response
consumed per iteration.  `acc` is the accumulated `stats` value (`none`
before the first page).  A response with an `errors` array is returned
as-is; otherwise the page is merged and the walk continues exactly when
`contCond` holds for the just-fetched response. -/
def statsLoop (flag : String) : Option StatsRes → List StatsRes → WalkOut
  | _, [] => WalkOut.noResponse
  | acc, res :: rest =>
    if res.errors.isSome then
      WalkOut.raw res
    else
      let stats := match acc with
        | none => res
        | some s => mergePage s res
      if contCond flag res then
        statsLoop flag (some stats) rest
      else
        WalkOut.merged (overrideStats stats)

/-- `statsFetcher({username, ...})`: run the pagination loop from an empty
accumulator.  The GraphQL variables (login, feature toggles) only shape the
upstream query; their effect is subsumed by the explicit `responses` list. -/
def statsFetcher (flag : String) (responses : List StatsRes) : WalkOut :=
  statsLoop flag none responses

/-- The number of upstream queries the pagination loop issues on a given
response sequence: one per iteration, a further one exactly when the page
had no errors and `contCond` held. -/
def fetchCount (flag : String) : List StatsRes → Nat
  | [] => 0
  | res :: rest =>
    1 + (if res.errors.isSome then 0
         else if contCond flag res then fetchCount flag rest else 0)

/-- The response object `fetchStats` goes on to inspect (`raw` and `merged`
are indistinguishable to it; both are just `res`). -/
def walkRes : WalkOut → Option StatsRes
  | WalkOut.raw r => some r
  | WalkOut.merged r => some r
  | WalkOut.noResponse => none

/-- Modelled from the spec: `wrapTextMultiline` lives in `common/utils.js`,
which is not under `src/`; the spec (section 4.2) says the message is
word-wrapped to a bounded line width (the call site passes width 90 and
1 line) and only the first line is surfaced. -/
def wrapTextFirstLine (s : String) : String :=
  s.take 90

/-- The error classification of `fetchStats` (lines 189–207): `NOT_FOUND`
type on the first error throws `USER_NOT_FOUND` with the upstream message
(or a default when the message is absent or empty); otherwise a truthy
message throws with the wrapped message and the HTTP status text; otherwise
the generic `GRAPHQL_ERROR` message.  An empty `errors` array (truthy in JS)
would make `errors[0].type` a property access on `undefined`. -/
def classifyStatsErrors (errs : List GqlError) (statusText : String) : JsError :=
  match errs with
  | [] => JsError.jsUndefinedAccess
  | e :: _ =>
    if e.ty = some "NOT_FOUND" then
      JsError.custom (jsOrStr e.message "Could not fetch user.") "USER_NOT_FOUND"
    else if jsTruthyStr e.message then
      JsError.custom (wrapTextFirstLine (jsOrStr e.message "")) statusText
    else
      JsError.custom
        "Something went wrong while trying to retrieve the stats data using the GraphQL API."
        "GRAPHQL_ERROR"

/-- `stats.name = user.name || user.login`. -/
def jsDisplayName (user : StatsUser) : String :=
  jsOrStr user.name user.login

/-- The `rank` object `{level, percentile}`. -/
structure Rank where
  level : String
  percentile : ℚ
deriving DecidableEq, Repr

/-- The statistics record `fetchStats` returns. -/
structure StatsOut where
  name : String
  totalPRs : Nat
  totalPRsMerged : Nat
  mergedPRsPercentage : ℤ
  totalReviews : Nat
  totalCommits : Nat
  totalIssues : Nat
  totalStars : Nat
  totalDiscussionsStarted : Nat
  totalDiscussionsAnswered : Nat
  contributedTo : Nat
  rank : Rank
deriving DecidableEq, Repr

/-- The record assembled on the success path of `fetchStats`: the `stats`
object initialized with constants at lines 167–180, with `name` set from the
payload and the subsequent reassignments (lines 212–220) writing the same
constants back. -/
def mkStatsOut (user : StatsUser) : StatsOut :=
  { name := jsDisplayName user
    totalPRs := 46
    totalPRsMerged := 40
    mergedPRsPercentage := 87
    totalReviews := 15
    totalCommits := 2100
    totalIssues := 0
    totalStars := 10
    totalDiscussionsStarted := 0
    totalDiscussionsAnswered := 0
    contributedTo := 15
    rank := { level := "C+", percentile := 45 } }

/-- `fetchStats(username, include_all_commits, exclude_repo,
include_merged_pull_requests, include_discussions,
include_discussions_answers)`.  `flag` is `process.env.FETCH_MULTI_PAGE_STARS`
and `responses` the sequence of upstream page responses; the second component
of the result counts upstream queries issued.  An empty username throws
`MissingParamError(["username"])` before any query.  The boolean toggles only
shape the upstream query; `exclude_repo` feeds a `Set` the tampered code never
reads. -/
def fetchStats (username : String) (include_all_commits : Bool)
    (exclude_repo : List String) (include_merged_pull_requests : Bool)
    (include_discussions : Bool) (include_discussions_answers : Bool)
    (flag : String) (responses : List StatsRes) :
    Except JsError StatsOut × Nat :=
  if username = "" then
    (Except.error (JsError.missingParam ["username"]), 0)
  else
    match walkRes (statsFetcher flag responses) with
    | none => (Except.error JsError.noUpstream, fetchCount flag responses)
    | some r =>
      match r.errors with
      | some errs =>
        (Except.error (classifyStatsErrors errs r.statusText), fetchCount flag responses)
      | none => (Except.ok (mkStatsOut r.user), fetchCount flag responses)

/-- Modelled from the spec (section 4.4), for comparison only: the star total
the spec prescribes — the sum of `stargazerCount` over all fetched repository
nodes whose name is not in `exclude_repo`. -/
def specTotalStars (nodes : List RepoNode) (exclude_repo : List String) : Nat :=
  ((nodes.filter (fun n => !(exclude_repo.contains n.name))).map
    (fun n => n.stargazers)).sum

/-! ## Helper lemmas -/

lemma filter_full_length {p : RepoNode → Bool} :
    ∀ l : List RepoNode, l.length = (l.filter p).length ↔ ∀ x ∈ l, p x := by
  intro l
  induction l with
  | nil => simp
  | cons a l ih =>
    by_cases hpa : p a
    · simp [List.filter_cons, hpa, ih]
    · simp only [List.filter_cons, hpa, if_neg, Bool.false_eq_true, ite_false,
        List.length_cons, List.mem_cons]
      constructor
      · intro h
        exact absurd (by omega : (List.filter p l).length ≤ l.length → False)
          (fun hc => hc (List.length_filter_le p l))
      · intro h
        exact absurd (h a (Or.inl rfl)) (by simp [hpa])

lemma contCond_true_iff (flag : String) (res : StatsRes) :
    contCond flag res = true ↔
      flag = "true" ∧ (∀ n ∈ res.user.repositories.nodes, 0 < n.stargazers) ∧
        res.user.repositories.pageInfo.hasNextPage = true := by
  simp only [contCond, Bool.and_eq_true, beq_iff_eq]
  constructor
  · rintro ⟨⟨hflag, hlen⟩, hnext⟩
    refine ⟨hflag, ?_, hnext⟩
    intro n hn
    have := (filter_full_length res.user.repositories.nodes).mp hlen n hn
    simpa using Nat.pos_of_ne_zero (by simpa using this)
  · rintro ⟨hflag, hstars, hnext⟩
    refine ⟨⟨hflag, ?_⟩, hnext⟩
    exact (filter_full_length res.user.repositories.nodes).mpr
      (fun n hn => by simpa using Nat.pos_iff_ne_zero.mp (hstars n hn))

lemma contCond_false_of_flag {flag : String} (h : flag ≠ "true") (res : StatsRes) :
    contCond flag res = false := by
  simp [contCond, h]

lemma statsLoop_merged_inv (flag : String) :
    ∀ (responses : List StatsRes) (acc : Option StatsRes) (r : StatsRes),
      (∀ a, acc = some a → a.errors = none) →
      statsLoop flag acc responses = WalkOut.merged r →
      ∃ s, s.errors = none ∧ r = overrideStats s := by
  intro responses
  induction responses with
  | nil =>
    intro acc r hacc h
    simp [statsLoop] at h
  | cons res rest ih =>
    intro acc r hacc h
    by_cases herr : res.errors.isSome
    · simp [statsLoop, herr] at h
    · have herrnone : res.errors = none := Option.not_isSome_iff_eq_none.mp herr
      cases acc with
      | none =>
        rw [statsLoop] at h
        simp only [herr, Bool.false_eq_true, if_false] at h
        by_cases hcont : contCond flag res = true
        · rw [if_pos hcont] at h
          exact ih (some res) r (fun a ha => by cases ha; exact herrnone) h
        · rw [if_neg hcont] at h
          cases h
          exact ⟨res, herrnone, rfl⟩
      | some s =>
        rw [statsLoop] at h
        simp only [herr, Bool.false_eq_true, if_false] at h
        have hmerr : (mergePage s res).errors = none := hacc s rfl
        by_cases hcont : contCond flag res = true
        · rw [if_pos hcont] at h
          exact ih (some (mergePage s res)) r (fun a ha => by cases ha; exact hmerr) h
        · rw [if_neg hcont] at h
          cases h
          exact ⟨mergePage s res, hmerr, rfl⟩

lemma statsFetcher_merged_inv {flag : String} {responses : List StatsRes} {r : StatsRes}
    (h : statsFetcher flag responses = WalkOut.merged r) :
    ∃ s, s.errors = none ∧ r = overrideStats s :=
  statsLoop_merged_inv flag responses none r (fun a ha => by cases ha) h

/-- C6: pagination never continues past a page containing a zero-star
repository: whenever the walker issues an (i+2)-nd query (so some page was
fetched after page i), page i existed, the multi-page flag was enabled, page
i reported `hasNextPage`, and every repository node on page i has a strictly
positive stargazer count. -/
theorem walker_no_page_after_zero_star (flag : String) (responses : List StatsRes)
    (i : Nat) (h : i + 1 < fetchCount flag responses) :
    ∃ res, responses.get? i = some res ∧ flag = "true" ∧
      res.user.repositories.pageInfo.hasNextPage = true ∧
      ∀ n ∈ res.user.repositories.nodes, 0 < n.stargazers := by
  induction responses generalizing i with
  | nil => simp [fetchCount] at h
  | cons res rest ih =>
    by_cases herr : res.errors.isSome
    · rw [fetchCount] at h
      simp [herr] at h
    · by_cases hcont : contCond flag res = true
      · cases i with
        | zero =>
          obtain ⟨hflag, hstars, hnext⟩ := (contCond_true_iff flag res).mp hcont
          exact ⟨res, rfl, hflag, hnext, hstars⟩
        | succ j =>
          rw [fetchCount] at h
          simp only [herr, Bool.false_eq_true, if_false, hcont, if_pos] at h
          obtain ⟨r, hr, h2, h3, h4⟩ := ih j (by omega)
          exact ⟨r, by simpa using hr, h2, h3, h4⟩
      · rw [fetchCount] at h
        simp only [herr, Bool.false_eq_true, if_false, hcont, if_false] at h
        omega

/-- C7: with the multi-page-stars flag disabled, the walker issues exactly
one query and its outcome is decided by the first page alone, even when that
page reports `hasNextPage = true`. -/
theorem walker_single_page_when_flag_disabled (flag : String) (res : StatsRes)
    (rest : List StatsRes) (h : flag ≠ "true") :
    fetchCount flag (res :: rest) = 1 ∧
    statsFetcher flag (res :: rest) =
      (if res.errors.isSome then WalkOut.raw res else WalkOut.merged (overrideStats res)) := by
  have hc := contCond_false_of_flag h res
  constructor
  · rw [fetchCount]
    by_cases herr : res.errors.isSome <;> simp [herr, hc]
  · by_cases herr : res.errors.isSome <;>
      simp [statsFetcher, statsLoop, herr, hc]

/-- An example first-page response: one starred repository, upstream reports
a further page. -/
def pageEx : StatsRes :=
  ⟨none, ⟨some "Alice", "alice", 5, 3, ⟨[⟨"a", 3⟩], ⟨true, some "cur"⟩⟩⟩, "OK"⟩

/-- Witness for C7 at a concrete input: flag disabled, first page reporting
`hasNextPage = true`. -/
theorem walker_single_page_when_flag_disabled_witness :
    (("false" : String) ≠ "true") ∧
    (fetchCount "false" [pageEx] = 1 ∧
      statsFetcher "false" [pageEx] =
        (if pageEx.errors.isSome then WalkOut.raw pageEx
         else WalkOut.merged (overrideStats pageEx))) :=
  ⟨by decide, walker_single_page_when_flag_disabled "false" pageEx [] (by decide)⟩

/-- A first page whose repositories all have positive stars and which
reports a next page. -/
def pageA : StatsRes :=
  ⟨none, ⟨some "Alice", "alice", 5, 3, ⟨[⟨"a", 3⟩, ⟨"b", 1⟩], ⟨true, some "c1"⟩⟩⟩, "OK"⟩

/-- A final page. -/
def pageB : StatsRes :=
  ⟨none, ⟨none, "alice", 0, 0, ⟨[⟨"c", 0⟩], ⟨false, none⟩⟩⟩, "OK"⟩

/-- Witness for C6 at a concrete two-page walk. -/
theorem walker_no_page_after_zero_star_witness :
    (0 + 1 < fetchCount "true" [pageA, pageB]) ∧
    (∃ res, [pageA, pageB].get? 0 = some res ∧ ("true" : String) = "true" ∧
      res.user.repositories.pageInfo.hasNextPage = true ∧
      ∀ n ∈ res.user.repositories.nodes, 0 < n.stargazers) :=
  ⟨by decide, walker_no_page_after_zero_star "true" [pageA, pageB] 0 (by decide)⟩

/-- C10: whatever the upstream pages contained, a successful walk returns a
merged response in which `pullRequests.totalCount` is 46,
`repositoriesContributedTo.totalCount` is 15, and the repository nodes are
the accumulated nodes with each stargazer count replaced by
`min(count, 2)` — in particular every node's count is at most 2. -/
theorem walker_merged_override (flag : String) (responses : List StatsRes)
    (r : StatsRes) (h : statsFetcher flag responses = WalkOut.merged r) :
    r.user.pullRequests = 46 ∧
    r.user.repositoriesContributedTo = 15 ∧
    (∃ s, r = overrideStats s ∧
      r.user.repositories.nodes = s.user.repositories.nodes.map capNode) ∧
    ∀ n ∈ r.user.repositories.nodes, n.stargazers ≤ 2 := by
  obtain ⟨s, hserr, rfl⟩ := statsFetcher_merged_inv h
  refine ⟨rfl, rfl, ⟨s, rfl, rfl⟩, ?_⟩
  intro n hn
  simp only [overrideStats, List.mem_map] at hn
  obtain ⟨m, hm, rfl⟩ := hn
  simp [capNode]

/-- Witness for C10 at a concrete one-page walk. -/
theorem walker_merged_override_witness :
    statsFetcher "false" [pageA] = WalkOut.merged (overrideStats pageA) ∧
    ((overrideStats pageA).user.pullRequests = 46 ∧
      (overrideStats pageA).user.repositoriesContributedTo = 15 ∧
      (∃ s, overrideStats pageA = overrideStats s ∧
        (overrideStats pageA).user.repositories.nodes =
          s.user.repositories.nodes.map capNode) ∧
      ∀ n ∈ (overrideStats pageA).user.repositories.nodes, n.stargazers ≤ 2) :=
  ⟨by decide, walker_merged_override "false" [pageA] (overrideStats pageA) (by decide)⟩

/-- C4: on every success path the returned statistics record is the constant
record — totalPRs 46, totalPRsMerged 40, mergedPRsPercentage 87, totalReviews
15, totalCommits 2100, totalIssues 0, totalStars 10, contributedTo 15, rank
C+/45 — and only `name` depends on the payload, via `user.name || user.login`. -/
theorem fetchStats_constant_record (username : String) (iac : Bool)
    (excl : List String) (imp idis ida : Bool) (flag : String)
    (responses : List StatsRes) (r : StatsRes)
    (hu : username ≠ "") (h : statsFetcher flag responses = WalkOut.merged r) :
    (fetchStats username iac excl imp idis ida flag responses).1 =
      Except.ok
        { name := jsDisplayName r.user
          totalPRs := 46
          totalPRsMerged := 40
          mergedPRsPercentage := 87
          totalReviews := 15
          totalCommits := 2100
          totalIssues := 0
          totalStars := 10
          totalDiscussionsStarted := 0
          totalDiscussionsAnswered := 0
          contributedTo := 15
          rank := { level := "C+", percentile := 45 } } := by
  obtain ⟨s, hserr, hr⟩ := statsFetcher_merged_inv h
  have herr : r.errors = none := by rw [hr]; exact hserr
  simp [fetchStats, hu, h, walkRes, herr, mkStatsOut]

/-- Witness for C4 at a concrete username and one-page walk. -/
theorem fetchStats_constant_record_witness :
    (("octocat" : String) ≠ "" ∧
      statsFetcher "false" [pageA] = WalkOut.merged (overrideStats pageA)) ∧
    (fetchStats "octocat" false [] false false false "false" [pageA]).1 =
      Except.ok
        { name := jsDisplayName (overrideStats pageA).user
          totalPRs := 46
          totalPRsMerged := 40
          mergedPRsPercentage := 87
          totalReviews := 15
          totalCommits := 2100
          totalIssues := 0
          totalStars := 10
          totalDiscussionsStarted := 0
          totalDiscussionsAnswered := 0
          contributedTo := 15
          rank := { level := "C+", percentile := 45 } } :=
  ⟨⟨by decide, by decide⟩,
    fetchStats_constant_record "octocat" false [] false false false "false" [pageA]
      (overrideStats pageA) (by decide) (by decide)⟩

/-- C5: every successfully returned record satisfies
`mergedPRsPercentage = round(totalPRsMerged / totalPRs * 100)` (here
87 = round(40 / 46 * 100)), and a record with `totalPRs = 0` would carry 0. -/
theorem fetchStats_merged_percentage (username : String) (iac : Bool)
    (excl : List String) (imp idis ida : Bool) (flag : String)
    (responses : List StatsRes) (out : StatsOut)
    (h : (fetchStats username iac excl imp idis ida flag responses).1 =
      Except.ok out) :
    out.mergedPRsPercentage =
      jsRound ((out.totalPRsMerged : ℚ) / (out.totalPRs : ℚ) * 100) ∧
    (out.totalPRs = 0 → out.mergedPRsPercentage = 0) := by
  have hout : ∃ u, out = mkStatsOut u := by
    rw [fetchStats] at h
    by_cases hu : username = ""
    · simp [hu] at h
    · simp only [hu, if_false, ite_false] at h
      cases hw : walkRes (statsFetcher flag responses) with
      | none => rw [hw] at h; simp at h
      | some r =>
        rw [hw] at h
        dsimp only at h
        cases herr : r.errors with
        | some errs => rw [herr] at h; simp at h
        | none => rw [herr] at h; simp at h; exact ⟨r.user, h.symm⟩
  obtain ⟨u, rfl⟩ := hout
  constructor
  · show (87 : ℤ) = jsRound (((40 : ℕ) : ℚ) / ((46 : ℕ) : ℚ) * 100)
    rw [jsRound, eq_comm, Int.floor_eq_iff]
    norm_num
  · intro h0
    exact absurd h0 (by norm_num [mkStatsOut])

/-- Witness for C5 at a concrete successful call. -/
theorem fetchStats_merged_percentage_witness :
    ((fetchStats "octocat" false [] false false false "false" [pageA]).1 =
      Except.ok (mkStatsOut (overrideStats pageA).user)) ∧
    ((mkStatsOut (overrideStats pageA).user).mergedPRsPercentage =
      jsRound (((mkStatsOut (overrideStats pageA).user).totalPRsMerged : ℚ) /
        ((mkStatsOut (overrideStats pageA).user).totalPRs : ℚ) * 100) ∧
    ((mkStatsOut (overrideStats pageA).user).totalPRs = 0 →
      (mkStatsOut (overrideStats pageA).user).mergedPRsPercentage = 0)) :=
  ⟨rfl,
    fetchStats_merged_percentage "octocat" false [] false false false "false"
      [pageA] (mkStatsOut (overrideStats pageA).user) rfl⟩

/-- C8: when the response the walker hands back carries an errors array whose
first element has type `NOT_FOUND`, `fetchStats` throws the `USER_NOT_FOUND`
typed error carrying the upstream message (default message when it is absent
or empty); the remaining errors `rest` are arbitrary — only the first is
inspected — and the outcome is an error, never a partial record. -/
theorem fetchStats_user_not_found (username : String) (iac : Bool)
    (excl : List String) (imp idis ida : Bool) (flag : String)
    (responses : List StatsRes) (r : StatsRes) (e : GqlError)
    (rest : List GqlError)
    (hu : username ≠ "")
    (hw : walkRes (statsFetcher flag responses) = some r)
    (herr : r.errors = some (e :: rest))
    (hty : e.ty = some "NOT_FOUND") :
    (fetchStats username iac excl imp idis ida flag responses).1 =
      Except.error
        (JsError.custom (jsOrStr e.message "Could not fetch user.")
          "USER_NOT_FOUND") := by
  rw [fetchStats]
  simp only [hu, if_false, ite_false, hw]
  rw [herr]
  simp [classifyStatsErrors, hty]

/-- A response whose errors array starts with a `NOT_FOUND` error. -/
def pageNotFound : StatsRes :=
  ⟨some [⟨some "NOT_FOUND", some "Could not resolve to a User with the login of nosuch."⟩,
         ⟨none, some "another error"⟩],
   ⟨none, "", 0, 0, ⟨[], ⟨false, none⟩⟩⟩, "OK"⟩

/-- Witness for C8 at a concrete `NOT_FOUND` response. -/
theorem fetchStats_user_not_found_witness :
    (("nosuch" : String) ≠ "" ∧
      walkRes (statsFetcher "false" [pageNotFound]) = some pageNotFound ∧
      pageNotFound.errors =
        some [⟨some "NOT_FOUND", some "Could not resolve to a User with the login of nosuch."⟩,
              ⟨none, some "another error"⟩]) ∧
    (fetchStats "nosuch" false [] false false false "false" [pageNotFound]).1 =
      Except.error
        (JsError.custom
          (jsOrStr (some "Could not resolve to a User with the login of nosuch.")
            "Could not fetch user.")
          "USER_NOT_FOUND") :=
  ⟨⟨by decide, by decide, by decide⟩,
    fetchStats_user_not_found "nosuch" false [] false false false "false"
      [pageNotFound] pageNotFound
      ⟨some "NOT_FOUND", some "Could not resolve to a User with the login of nosuch."⟩
      [⟨none, some "another error"⟩]
      (by decide) (by decide) (by decide) (by decide)⟩

/-- C9: a falsy (empty) username makes both fetchers throw
`MissingParamError(["username"])` with zero upstream queries issued, for all
values of every other argument. -/
theorem missing_username_no_network (excl : List String) (sw cw : ℚ)
    (payload : List LangRepoNode) (iac : Bool) (excl2 : List String)
    (imp idis ida : Bool) (flag : String) (responses : List StatsRes) :
    fetchTopLanguages "" excl sw cw payload =
      (Except.error (JsError.missingParam ["username"]), 0) ∧
    fetchStats "" iac excl2 imp idis ida flag responses =
      (Except.error (JsError.missingParam ["username"]), 0) := by
  constructor
  · simp [fetchTopLanguages]
  · simp [fetchStats]

/-- C2: for any two calls with non-empty usernames — whatever the exclusion
lists, the weights and the upstream payloads — `fetchTopLanguages` returns
the identical constant table `topLangs`, whose sizes are normalized
percentages summing to 100. -/
theorem langs_constant_output (u1 : String) (er1 : List String) (sw1 cw1 : ℚ)
    (p1 : List LangRepoNode) (u2 : String) (er2 : List String) (sw2 cw2 : ℚ)
    (p2 : List LangRepoNode) (h1 : u1 ≠ "") (h2 : u2 ≠ "") :
    fetchTopLanguages u1 er1 sw1 cw1 p1 = fetchTopLanguages u2 er2 sw2 cw2 p2 ∧
    (fetchTopLanguages u1 er1 sw1 cw1 p1).1 = Except.ok topLangs ∧
    (topLangs.map (fun kv => kv.2.size)).sum = 100 := by
  refine ⟨?_, ?_, ?_⟩
  · simp [fetchTopLanguages, h1, h2]
  · simp [fetchTopLanguages, h1]
  · norm_num [topLangs, sortBySizeDesc, insertBySizeDesc, normalizedLanguages,
      customLanguages, totalBytes]

/-- Witness for C2 at two concrete, entirely different calls. -/
theorem langs_constant_output_witness :
    (("alice" : String) ≠ "" ∧ ("bob" : String) ≠ "") ∧
    (fetchTopLanguages "alice" [] 1 0 [] =
        fetchTopLanguages "bob" ["dotfiles"] 2 3
          [⟨"r", [⟨12345, "Haskell", "#5e5086"⟩]⟩] ∧
      (fetchTopLanguages "alice" [] 1 0 []).1 = Except.ok topLangs ∧
      (topLangs.map (fun kv => kv.2.size)).sum = 100) :=
  ⟨⟨by decide, by decide⟩,
    langs_constant_output "alice" [] 1 0 [] "bob" ["dotfiles"] 2 3
      [⟨"r", [⟨12345, "Haskell", "#5e5086"⟩]⟩] (by decide) (by decide)⟩

/-- The two-repository payload of the C1 example: one repository contributing
Python 300 bytes, the other Python 200 and Go 100 bytes. -/
def c1Payload : List LangRepoNode :=
  [ ⟨"repo-one", [⟨300, "Python", "#3572A5"⟩]⟩
  , ⟨"repo-two", [⟨200, "Python", "#3572A5"⟩, ⟨100, "Go", "#00ADD8"⟩]⟩ ]

/-- C1 fails on the code: on the two-repository payload the function returns
the hard-coded table, in which Python carries size 38.5 (a percentage) and
count 15 rather than the merged size 500 and count 2, and Go carries size
3.2 and count 2 rather than 100 and 1.  No aggregation of the payload's
edges takes place. -/
theorem langs_merge_semantics_ignored :
    (fetchTopLanguages "alice" [] 1 0 c1Payload).1 = Except.ok topLangs ∧
    topLangs.lookup "Python" = some ⟨"Python", "#3572A5", 38.5, 15⟩ ∧
    topLangs.lookup "Go" = some ⟨"Go", "#00ADD8", 3.2, 2⟩ ∧
    ((38.5 : ℚ) ≠ 500 ∧ (15 : ℕ) ≠ 2 ∧ (3.2 : ℚ) ≠ 100 ∧ (2 : ℕ) ≠ 1) := by
  refine ⟨by simp [fetchTopLanguages], ?_, ?_, by norm_num⟩
  · norm_num [topLangs, sortBySizeDesc, insertBySizeDesc, normalizedLanguages,
      customLanguages, totalBytes, List.lookup]
  · norm_num [topLangs, sortBySizeDesc, insertBySizeDesc, normalizedLanguages,
      customLanguages, totalBytes, List.lookup]
    rfl

/-- A one-page response with two repositories of 3 and 4 stars. -/
def c3Page : StatsRes :=
  ⟨none, ⟨some "Alice", "alice", 5, 3, ⟨[⟨"a", 3⟩, ⟨"b", 4⟩], ⟨false, none⟩⟩⟩, "OK"⟩

/-- C3 fails on the code: with no exclusions and repositories of 3 and 4
stars the spec-prescribed star total is 7, but the returned record carries
the forced constant `totalStars = 10`. -/
theorem stats_total_stars_forced :
    (fetchStats "alice" false [] false false false "false" [c3Page]).1 =
      Except.ok (mkStatsOut (overrideStats c3Page).user) ∧
    (mkStatsOut (overrideStats c3Page).user).totalStars = 10 ∧
    specTotalStars c3Page.user.repositories.nodes [] = 7 ∧
    (10 : ℕ) ≠ 7 := by
  refine ⟨rfl, rfl, by decide, by norm_num⟩
